import Mathlib

/-!
Shallow embedding of `weaveenv/plugins.py` (HomeWeave/WeaveEnv): the plugin
lifecycle state machine (PluginState, the StateHook pipeline, PluginManager)
and the manifest loader `load_plugin_json`.  Filesystem, database, message-bus
and subprocess effects are represented explicitly in a `World` record, and
every hook callback is translated method-by-method from the source.
-/

/-- Python exception values raised by the embedded code.  `pluginLoadError`
is the typed validation error (`weavelib.exceptions.PluginLoadError`);
`attributeError` and `indexError` are untyped interpreter errors. -/
inductive PyError where
  | pluginLoadError (msg : String)
  | internalError (msg : String)
  | objectNotFound (msg : String)
  | attributeError (msg : String)
  | importError
  | gitCommandError
  | rpcError
  | indexError
  deriving DecidableEq

/-- Parsed content of a `plugin.json` dict (the fields the code reads).
`importOk`/`attrOk` model whether `importlib.import_module(mod)` succeeds and
whether the class attribute exists, when `load_service=True`. -/
structure PluginInfo where
  service : Option String
  start_timeout : Nat := 30
  exported_rpc_classes : List String := []
  required_rpc_classes : List String := []
  importOk : Bool := true
  attrOk : Bool := true
  deriving DecidableEq

/-- State of the `plugin.json` file at an install path: absent (IOError on
open), unparsable (ValueError from `json.load`), or parsed. -/
inductive ManifestFile where
  | missing
  | malformed
  | parsed (info : PluginInfo)
  deriving DecidableEq

/-- The dict returned by `load_plugin_json` (fields used by callers). -/
structure LoadResult where
  package_path : String
  start_timeout : Nat
  service_name : String
  module_loaded : Bool
  exported_rpc_classes : List String
  required_rpc_classes : List String
  deriving DecidableEq

/-- Python `VALID_CLASSES` from plugins.py. -/
def VALID_CLASSES : List String := ["http", "dashboard", "datastore"]

/-- Python `list.pop(-1)`: removes and discards the last element; raises IndexError
on an empty list. -/
def popLast (l : List String) : Except PyError (List String) :=
  if l.isEmpty then .error .indexError else .ok l.dropLast

/-- Python `'.' in fully_qualified`. -/
def containsDot (s : String) : Bool :=
  s.toList.contains '.'

/-- Python `fully_qualified.rsplit('.', 1)`, meaningful for strings containing a
dot: returns (module part, class part after the last dot). -/
def rsplitDot (s : String) : String × String :=
  let cs := s.toList
  let revCls := cs.reverse.takeWhile (fun c => c ≠ '.')
  (String.mk (cs.take (cs.length - revCls.length - 1)), String.mk revCls.reverse)

/-- Outcome of the `try` block at plugins.py lines 64-84, before the outer
`finally`: the possibly-grown `sys.path` and either an error or a flag
telling whether the module object was loaded. -/
def load_plugin_json_try (install_path : String) (info : PluginInfo)
    (load_service : Bool) (sysPath : List String) :
    List String × Except PyError Bool :=
  match info.service with
  | none =>
      -- KeyError on plugin_info["service"], caught at line 83
      (sysPath, .error (.pluginLoadError "Required field not found in plugin.json."))
  | some fq =>
      if ¬ containsDot fq then
        (sysPath, .error (.pluginLoadError "Bad 'service' specification in plugin.json."))
      else if load_service then
        -- sys.path.append(install_path); import under an inner finally pop
        let sp := sysPath ++ [install_path]
        match popLast sp with
        | .error e => (sp, .error e)
        | .ok sp2 =>
            if ¬ info.importOk then
              (sp2, .error (.pluginLoadError "Failed to import dependencies."))
            else if ¬ info.attrOk then
              (sp2, .error (.pluginLoadError "Bad service specification in plugin.json"))
            else
              (sp2, .ok true)
      else
        (sysPath, .ok false)

/-- Python `load_plugin_json(install_path, load_service)` from plugins.py lines
55-111, over the manifest file content and the current `sys.path`.  Returns
the result (or raised error) together with the final `sys.path`.  Note the
outer `finally: sys.path.pop(-1)` at line 86 runs on every path once the
manifest has been parsed, whether or not anything was appended. -/
def load_plugin_json (install_path : String) (file : ManifestFile)
    (load_service : Bool) (sysPath : List String) :
    Except PyError LoadResult × List String :=
  match file with
  | .missing => (.error (.pluginLoadError "Error opening plugin.json."), sysPath)
  | .malformed => (.error (.pluginLoadError "Error parsing plugin.json."), sysPath)
  | .parsed info =>
      let (sp, res) := load_plugin_json_try install_path info load_service sysPath
      -- outer finally: sys.path.pop(-1)
      match popLast sp with
      | .error e => (.error e, sp)
      | .ok sp2 =>
          match res with
          | .error e => (.error e, sp2)
          | .ok loaded =>
              let exported := info.exported_rpc_classes
              let deps := info.required_rpc_classes
              if (exported.filter (fun x => ¬ VALID_CLASSES.contains x)) ≠ [] then
                (.error (.pluginLoadError "Invalid rpc_class exported."), sp2)
              else if (deps.filter (fun x => ¬ VALID_CLASSES.contains x)) ≠ [] then
                (.error (.pluginLoadError "Invalid dependencies."), sp2)
              else
                (.ok { package_path := info.service.getD "",
                       start_timeout := info.start_timeout,
                       service_name := (rsplitDot (info.service.getD "")).2,
                       module_loaded := loaded,
                       exported_rpc_classes := exported,
                       required_rpc_classes := deps }, sp2)

/-- Python `url_to_plugin_id`: md5 digest of the url, modelled as an injective
digest stand-in (no claim inspects the digest value). -/
def url_to_plugin_id (url : String) : String :=
  String.append "md5-" url

/-- A `PluginData` record (peewee row / in-memory model object): the fields
plugins.py reads and writes.  `enabled` defaults to False. -/
structure DbRow where
  app_url : String
  name : String
  description : String
  enabled : Bool := false
  deriving DecidableEq

/-- A `BaseServicePlugin` process handle; `running` is flipped by
`service_start` / `service_stop`. -/
structure Service where
  running : Bool
  deriving DecidableEq

/-- The in-memory `PluginState` dataclass (plugins.py lines 158-201).
`installed_dir` and `venv` are paths whose on-disk existence lives in
`World`; the remaining fields are carried here. -/
structure PluginState where
  name : String
  description : String
  remote_url : String
  db_plugin : Option DbRow := none
  active : Bool := false
  token : Option String := none
  service : Option Service := none
  start_timeout : Nat := 30
  exported_rpc_classes : List String := []
  required_rpc_classes : List String := []
  deriving DecidableEq

/-- Content of a plugin source tree (remote repository or a cloned
`installed_dir`): its `plugin.json` and whether `requirements.txt` exists. -/
structure RepoContent where
  manifest : ManifestFile
  hasRequirements : Bool
  deriving DecidableEq

/-- Side effects performed by hooks, recorded as a ghost log. -/
inductive Effect where
  | createVenv
  | pipInstall
  | removeDir
  | gitClone
  | removeVenv
  | dbInsert
  | dbDelete
  | dbSave
  | busRegister
  | busUnregister
  | serviceStart
  | serviceStop
  deriving DecidableEq

/-- The world a single plugin's lifecycle runs in: the in-memory
`PluginState`, the disk (installed_dir content, venv dir), the persisted
database row, the interpreter's `sys.path`, the environment's behaviour
(remote repo content, whether clone/pip/process-start succeed, the token the
bus returns), and a ghost log of performed side effects. -/
structure World where
  plugin : PluginState
  dirContent : Option RepoContent := none
  venvExists : Bool := false
  dbRow : Option DbRow := none
  sysPath : List String := []
  remote : RepoContent
  cloneOk : Bool := true
  pipOk : Bool := true
  registerOk : Bool := true
  busToken : String := "bus-token"
  startOk : Bool := true
  log : List Effect := []
  deriving DecidableEq

/-- Python `PluginState.enabled` property: `bool(self.db_plugin and
self.db_plugin.enabled)`. -/
def PluginState.enabled (p : PluginState) : Bool :=
  (p.db_plugin.map DbRow.enabled).getD false

/-- Python `PluginState.installed` property: `self.installed_dir.is_dir() and
self.venv.is_installed()`. -/
def World.installed (w : World) : Bool :=
  w.dirContent.isSome && w.venvExists

/-- Python `installed_dir` path as computed by `PluginFilesStateHook.load`. -/
def World.installPath (w : World) : String :=
  String.append "plugins/" (url_to_plugin_id w.plugin.remote_url)

/-- The info snapshot returned by `PluginState.info()`. -/
structure Info where
  name : String
  description : String
  remote_url : String
  id : String
  active : Bool
  enabled : Bool
  installed : Bool
  deriving DecidableEq

/-- Python `PluginState.info()` over the world. -/
def World.info (w : World) : Info :=
  { name := w.plugin.name,
    description := w.plugin.description,
    remote_url := w.plugin.remote_url,
    id := url_to_plugin_id w.plugin.remote_url,
    active := w.plugin.active,
    enabled := w.plugin.enabled,
    installed := w.installed }

/-- The six concrete hooks, in the registration order of
`PluginManager.__init__`. -/
inductive Hook where
  | venvH
  | fsH
  | dbH
  | jsonH
  | messagingH
  | execH
  deriving DecidableEq

/-- The three phases of a lifecycle transition. -/
inductive Phase where
  | before
  | on
  | after
  deriving DecidableEq

/-- The six lifecycle transitions. -/
inductive Op where
  | install
  | uninstall
  | enable
  | disable
  | activate
  | deactivate
  deriving DecidableEq

/-- Trace events: a hook callback invocation, or a hook's `stop()`. -/
inductive Event where
  | call (hook : Hook) (phase : Phase) (op : Op)
  | hookStop (hook : Hook)
  deriving DecidableEq

/-- Result of a Python call: either a new world, or a raised exception
together with the world at the moment of the raise. -/
abbrev PyResult := Except (PyError × World) World

/-- Record a performed side effect in the ghost log. -/
def World.act (w : World) (a : Effect) : World :=
  { w with log := w.log ++ [a] }

/-- Python `VirtualEnvHook.before_enable`: fail unless the venv is provisioned. -/
def VirtualEnvHook.before_enable (w : World) : PyResult :=
  if ¬ w.venvExists then
    .error (.pluginLoadError "VirtualEnv not installed.", w)
  else
    .ok w

/-- Python `VirtualEnvHook.on_install`, i.e. `venv.install(requirements_file)`
(plugins.py lines 130-143): create the environment only when it does not
already exist; then, if `requirements.txt` exists in the installed dir, run
pip — whose failure makes `install` return False, a value the hook ignores. -/
def VirtualEnvHook.on_install (w : World) : PyResult :=
  let w1 := if ¬ w.venvExists then ({ w with venvExists := true }).act .createVenv else w
  let reqExists := match w1.dirContent with
    | some c => c.hasRequirements
    | none => false
  if reqExists then .ok (w1.act .pipInstall) else .ok w1

/-- Python `VirtualEnvHook.after_install`: the venv directory must now exist. -/
def VirtualEnvHook.after_install (w : World) : PyResult :=
  if ¬ w.venvExists then
    .error (.internalError "VirtualEnv directory not found.", w)
  else
    .ok w

/-- Python `VirtualEnvHook.on_uninstall`, i.e. `venv.clean()`: rmtree ignoring
FileNotFoundError. -/
def VirtualEnvHook.on_uninstall (w : World) : PyResult :=
  if w.venvExists then .ok (({ w with venvExists := false }).act .removeVenv)
  else .ok w

/-- Python `PluginFilesStateHook.on_install`: clear a pre-existing installed dir,
then clone the remote repository into it. -/
def PluginFilesStateHook.on_install (w : World) : PyResult :=
  let w1 := if w.dirContent.isSome then ({ w with dirContent := none }).act .removeDir else w
  if w1.cloneOk then .ok (({ w1 with dirContent := some w1.remote }).act .gitClone)
  else .error (.gitCommandError, w1)

/-- Python `PluginFilesStateHook.after_install`: the directory must now exist. -/
def PluginFilesStateHook.after_install (w : World) : PyResult :=
  if w.dirContent.isNone then .error (.internalError "Unable to install plugin.", w)
  else .ok w

/-- Python `PluginFilesStateHook.on_uninstall`: remove the installed dir if present. -/
def PluginFilesStateHook.on_uninstall (w : World) : PyResult :=
  if w.dirContent.isSome then .ok (({ w with dirContent := none }).act .removeDir)
  else .ok w

/-- Python `PluginFilesStateHook.before_enable`: the installed dir must exist. -/
def PluginFilesStateHook.before_enable (w : World) : PyResult :=
  if w.dirContent.isNone then .error (.pluginLoadError "Plugin not installed.", w)
  else .ok w

/-- Python `PluginFilesStateHook.before_activate` delegates to `before_enable`. -/
def PluginFilesStateHook.before_activate (w : World) : PyResult :=
  PluginFilesStateHook.before_enable w

/-- Python `PluginDBHook.on_install`: build a fresh record (enabled defaults to
False), point `db_plugin` at it, and `save(force_insert=True)`, passing on
IntegrityError when the row already exists. -/
def PluginDBHook.on_install (w : World) : PyResult :=
  let obj : DbRow := { app_url := w.plugin.remote_url, name := w.plugin.name,
                       description := w.plugin.description }
  let w1 := { w with plugin := { w.plugin with db_plugin := some obj } }
  if w1.dbRow.isSome then .ok w1
  else .ok (({ w1 with dbRow := some obj }).act .dbInsert)

/-- Python `PluginDBHook.on_uninstall`: no-op without an in-memory record;
otherwise delete the row, ignoring DoesNotExist.  The in-memory `db_plugin`
reference is left in place. -/
def PluginDBHook.on_uninstall (w : World) : PyResult :=
  match w.plugin.db_plugin with
  | none => .ok w
  | some _ =>
      if w.dbRow.isSome then .ok (({ w with dbRow := none }).act .dbDelete)
      else .ok w

/-- Python `PluginDBHook.on_enable`: set the record's enabled flag and save it;
an AttributeError on None if no record was ever attached. -/
def PluginDBHook.on_enable (w : World) : PyResult :=
  match w.plugin.db_plugin with
  | none => .error (.attributeError "enabled", w)
  | some r =>
      let r2 := { r with enabled := true }
      let p2 := { w.plugin with db_plugin := some r2 }
      .ok (({ w with plugin := p2, dbRow := some r2 }).act .dbSave)

/-- Python `PluginDBHook.on_disable`: clear the record's enabled flag and save. -/
def PluginDBHook.on_disable (w : World) : PyResult :=
  match w.plugin.db_plugin with
  | none => .error (.attributeError "enabled", w)
  | some r =>
      let r2 := { r with enabled := false }
      let p2 := { w.plugin with db_plugin := some r2 }
      .ok (({ w with plugin := p2, dbRow := some r2 }).act .dbSave)

/-- Python `PluginJsonHook.before_activate` (plugins.py lines 350-355): parse
`plugin.json` with `load_service=False` and write the parsed
`start_timeout` and capability lists into the plugin state. -/
def PluginJsonHook.before_activate (w : World) : PyResult :=
  let manifest := match w.dirContent with
    | some c => c.manifest
    | none => .missing
  match load_plugin_json w.installPath manifest false w.sysPath with
  | (.error e, sp) => .error (e, { w with sysPath := sp })
  | (.ok res, sp) =>
      let p2 := { w.plugin with
                  start_timeout := res.start_timeout,
                  exported_rpc_classes := res.exported_rpc_classes,
                  required_rpc_classes := res.required_rpc_classes }
      .ok { w with sysPath := sp, plugin := p2 }

/-- Python `MessagingRegistrationHook.on_activate`: `register_plugin` RPC; on
success store the returned token. -/
def MessagingRegistrationHook.on_activate (w : World) : PyResult :=
  if w.registerOk then
    .ok (({ w with plugin := { w.plugin with token := some w.busToken } }).act .busRegister)
  else .error (.rpcError, w)

/-- Python `MessagingRegistrationHook.on_deactivate`: `unregister_plugin` RPC,
then clear the token. -/
def MessagingRegistrationHook.on_deactivate (w : World) : PyResult :=
  .ok (({ w with plugin := { w.plugin with token := none } }).act .busUnregister)

/-- Python `PluginExecutionStateHook.before_enable`: require `installed`. -/
def PluginExecutionStateHook.before_enable (w : World) : PyResult :=
  if ¬ w.installed then .error (.pluginLoadError "Plugin is not installed.", w)
  else .ok w

/-- Python `PluginExecutionStateHook.before_activate`: `before_enable`, then
require `enabled`. -/
def PluginExecutionStateHook.before_activate (w : World) : PyResult :=
  match PluginExecutionStateHook.before_enable w with
  | .error e => .error e
  | .ok w1 =>
      if ¬ w1.plugin.enabled then .error (.pluginLoadError "Plugin is not enabled.", w1)
      else .ok w1

/-- Python's `not token.strip()`: true when the token strips to empty. -/
def pyBlank (t : String) : Bool :=
  (t.toList.filter (fun c => ¬ c.isWhitespace)).isEmpty

/-- Python `PluginExecutionStateHook.on_activate` (plugins.py lines 420-432):
require a non-blank token, build the service and `run_plugin` it; a start
that does not become ready in time is stopped again and fails the
activation, leaving `plugin_state.service` unassigned. -/
def PluginExecutionStateHook.on_activate (w : World) : PyResult :=
  let blank := match w.plugin.token with
    | none => true
    | some t => pyBlank t
  if blank then .error (.internalError "Not registered with messaging server.", w)
  else
    let w1 := w.act .serviceStart
    if w1.startOk then
      .ok { w1 with plugin := { w1.plugin with service := some { running := true } } }
    else .error (.pluginLoadError "Unable to start the plugin.", w1.act .serviceStop)

/-- Python `PluginExecutionStateHook.after_activate`: set `active := True`. -/
def PluginExecutionStateHook.after_activate (w : World) : PyResult :=
  .ok { w with plugin := { w.plugin with active := true } }

/-- Python `PluginExecutionStateHook.on_deactivate`: `stop_plugin(service)` — an
AttributeError on None when no service was ever assigned — then clear
`active`. -/
def PluginExecutionStateHook.on_deactivate (w : World) : PyResult :=
  match w.plugin.service with
  | none => .error (.attributeError "service_stop", w)
  | some _ =>
      let p2 := { w.plugin with service := some { running := false }, active := false }
      .ok (({ w with plugin := p2 }).act .serviceStop)

/-- Python `PluginExecutionStateHook.before_disable`: forbid while active. -/
def PluginExecutionStateHook.before_disable (w : World) : PyResult :=
  if w.plugin.active then .error (.pluginLoadError "Plugin must be stopped first.", w)
  else .ok w

/-- Python `PluginExecutionStateHook.before_uninstall`: `before_disable`, then
forbid while enabled. -/
def PluginExecutionStateHook.before_uninstall (w : World) : PyResult :=
  match PluginExecutionStateHook.before_disable w with
  | .error e => .error e
  | .ok w1 =>
      if w1.plugin.enabled then .error (.pluginLoadError "Must disable the plugin first.", w1)
      else .ok w1

/-- Dispatch one hook callback: exactly the methods each concrete hook
overrides; every other callback is the `StateHook` base-class no-op. -/
def dispatch : Hook → Phase → Op → World → PyResult
  | .venvH, .before, .enable, w => VirtualEnvHook.before_enable w
  | .venvH, .on, .install, w => VirtualEnvHook.on_install w
  | .venvH, .after, .install, w => VirtualEnvHook.after_install w
  | .venvH, .on, .uninstall, w => VirtualEnvHook.on_uninstall w
  | .fsH, .on, .install, w => PluginFilesStateHook.on_install w
  | .fsH, .after, .install, w => PluginFilesStateHook.after_install w
  | .fsH, .on, .uninstall, w => PluginFilesStateHook.on_uninstall w
  | .fsH, .before, .enable, w => PluginFilesStateHook.before_enable w
  | .fsH, .before, .activate, w => PluginFilesStateHook.before_activate w
  | .dbH, .on, .install, w => PluginDBHook.on_install w
  | .dbH, .on, .uninstall, w => PluginDBHook.on_uninstall w
  | .dbH, .on, .enable, w => PluginDBHook.on_enable w
  | .dbH, .on, .disable, w => PluginDBHook.on_disable w
  | .jsonH, .before, .activate, w => PluginJsonHook.before_activate w
  | .messagingH, .on, .activate, w => MessagingRegistrationHook.on_activate w
  | .messagingH, .on, .deactivate, w => MessagingRegistrationHook.on_deactivate w
  | .execH, .before, .enable, w => PluginExecutionStateHook.before_enable w
  | .execH, .before, .activate, w => PluginExecutionStateHook.before_activate w
  | .execH, .on, .activate, w => PluginExecutionStateHook.on_activate w
  | .execH, .after, .activate, w => PluginExecutionStateHook.after_activate w
  | .execH, .on, .deactivate, w => PluginExecutionStateHook.on_deactivate w
  | .execH, .before, .disable, w => PluginExecutionStateHook.before_disable w
  | .execH, .before, .uninstall, w => PluginExecutionStateHook.before_uninstall w
  | _, _, _, w => .ok w

/-- The hook registration order fixed by `PluginManager.__init__`. -/
def hookList : List Hook :=
  [.venvH, .fsH, .dbH, .jsonH, .messagingH, .execH]

/-- Python `for hook in hooks: hook.<phase>_<op>(plugin)`: run one phase across an
ordered hook list, stopping at the first raised exception.  Each invocation
is recorded as an event before the call runs. -/
def runPhase (ph : Phase) (op : Op) : List Hook → World → List Event × PyResult
  | [], w => ([], .ok w)
  | h :: t, w =>
      match dispatch h ph op w with
      | .error e => ([.call h ph op], .error e)
      | .ok w2 =>
          let (evs, r) := runPhase ph op t w2
          (.call h ph op :: evs, r)

/-- The common 3-phase body of every `PluginManager` lifecycle method:
`before_<op>` across the hooks, then `on_<op>`, then `after_<op>`; an
exception anywhere propagates and ends the operation. -/
def runOp (op : Op) (hs : List Hook) (w : World) : List Event × PyResult :=
  match runPhase .before op hs w with
  | (evs, .error e) => (evs, .error e)
  | (evs, .ok w1) =>
      match runPhase .on op hs w1 with
      | (evs2, .error e) => (evs ++ evs2, .error e)
      | (evs2, .ok w2) =>
          match runPhase .after op hs w2 with
          | (evs3, r) => (evs ++ evs2 ++ evs3, r)

/-- Python `PluginManager.install`. -/
def PluginManager.install (w : World) : List Event × PyResult :=
  runOp .install hookList w

/-- Python `PluginManager.uninstall`: phases over the reversed hook list. -/
def PluginManager.uninstall (w : World) : List Event × PyResult :=
  runOp .uninstall hookList.reverse w

/-- Python `PluginManager.enable`. -/
def PluginManager.enable (w : World) : List Event × PyResult :=
  runOp .enable hookList w

/-- Python `PluginManager.disable`: phases over the reversed hook list. -/
def PluginManager.disable (w : World) : List Event × PyResult :=
  runOp .disable hookList.reverse w

/-- Python `PluginManager.activate`. -/
def PluginManager.activate (w : World) : List Event × PyResult :=
  runOp .activate hookList w

/-- Python `PluginManager.deactivate`: phases over the reversed hook list. -/
def PluginManager.deactivate (w : World) : List Event × PyResult :=
  runOp .deactivate hookList.reverse w

/-- The manager method implementing each lifecycle transition. -/
def stepOp : Op → World → List Event × PyResult
  | .install, w => PluginManager.install w
  | .uninstall, w => PluginManager.uninstall w
  | .enable, w => PluginManager.enable w
  | .disable, w => PluginManager.disable w
  | .activate, w => PluginManager.activate w
  | .deactivate, w => PluginManager.deactivate w

/-- The hook order each transition uses: registration order for
install/enable/activate, reverse registration order for the teardowns. -/
def opHooks : Op → List Hook
  | .install => hookList
  | .enable => hookList
  | .activate => hookList
  | .uninstall => hookList.reverse
  | .disable => hookList.reverse
  | .deactivate => hookList.reverse

/-- One loop of `PluginManager.stop`: run phase `ph` of `deactivate` over
the reversed hook list, for every plugin state in turn. -/
def stopPass (ph : Phase) : List World → List Event × Except (PyError × World) (List World)
  | [] => ([], .ok [])
  | w :: rest =>
      match runPhase ph .deactivate hookList.reverse w with
      | (evs, .error e) => (evs, .error e)
      | (evs, .ok w1) =>
          match stopPass ph rest with
          | (evs2, .error e) => (evs ++ evs2, .error e)
          | (evs2, .ok ws) => (evs ++ evs2, .ok (w1 :: ws))

/-- Python `PluginManager.stop` (plugins.py lines 486-496): `before_deactivate`
for every plugin over the reversed hooks, then `after_deactivate` likewise,
then `stop()` once per hook in registration order.  `on_deactivate` is
never invoked. -/
def PluginManager.stop (ws : List World) : List Event × Except (PyError × World) (List World) :=
  match stopPass .before ws with
  | (evs, .error e) => (evs, .error e)
  | (evs, .ok ws1) =>
      match stopPass .after ws1 with
      | (evs2, .error e) => (evs ++ evs2, .error e)
      | (evs2, .ok ws2) =>
          (evs ++ evs2 ++ hookList.map Event.hookStop, .ok ws2)

/-- Per-plugin `load`, as run by `PluginManager.start` for each freshly
built `PluginState`: the venv and files hooks compute paths, the db hook
attaches the persisted record, the messaging hook opens the RPC channel and
auto-registers an enabled plugin, and the execution hook re-activates an
enabled plugin through its own before/on/after activate callbacks
(plugins.py lines 271-280, 299-301, 323-324, 362-369, 404-409). -/
def loadPlugin (w0 : World) : PyResult :=
  let w1 := { w0 with plugin := { w0.plugin with db_plugin := w0.dbRow } }
  match (if w1.plugin.enabled then MessagingRegistrationHook.on_activate w1 else .ok w1) with
  | .error e => .error e
  | .ok w2 =>
      if w2.plugin.service.isNone &&
          (match w2.plugin.db_plugin with | some r => r.enabled | none => false) then
        match PluginExecutionStateHook.before_activate w2 with
        | .error e => .error e
        | .ok w3 =>
            match PluginExecutionStateHook.on_activate w3 with
            | .error e => .error e
            | .ok w4 => PluginExecutionStateHook.after_activate w4
      else
        .ok w2

/-- A world whose `PluginState` is freshly constructed by
`PluginManager.start` from a lister entry: every lifecycle field still at
its dataclass default. -/
def World.fresh (w : World) : Prop :=
  w.plugin.db_plugin = none ∧ w.plugin.active = false ∧
  w.plugin.token = none ∧ w.plugin.service = none ∧
  w.plugin.start_timeout = 30 ∧ w.plugin.exported_rpc_classes = [] ∧
  w.plugin.required_rpc_classes = []

/-- Worlds reachable by the manager: a successful per-plugin `load` of a
fresh state, followed by any sequence of lifecycle operations, whether they
succeed or raise. -/
inductive Reachable : World → Prop where
  | loaded (w w' : World) : w.fresh → loadPlugin w = .ok w' → Reachable w'
  | stepOk (op : Op) (w w' : World) (evs : List Event) :
      Reachable w → stepOp op w = (evs, .ok w') → Reachable w'
  | stepErr (op : Op) (w w' : World) (e : PyError) (evs : List Event) :
      Reachable w → stepOp op w = (evs, .error (e, w')) → Reachable w'

/-- The spec's invariant chain `active ⇒ enabled ⇒ installed`. -/
def chainInv (w : World) : Prop :=
  (w.plugin.active = true → w.plugin.enabled = true) ∧
  (w.plugin.enabled = true → w.installed = true)

/-- The world after a call, whether it returned or raised. -/
def resultWorld : PyResult → World
  | .ok w => w
  | .error (_, w) => w

/-- The exception a call raised, if any. -/
def resultErr : PyResult → Option PyError
  | .ok _ => none
  | .error (e, _) => some e

/-- Replace only `sys.path`. -/
def World.setSysPath (w : World) (sp : List String) : World :=
  { w with sysPath := sp }

/-- Replace only `sys.path` and the manifest-derived plugin fields. -/
def World.setManifest (w : World) (sp : List String) (t : Nat)
    (ex rq : List String) : World :=
  { w with
    sysPath := sp,
    plugin := { w.plugin with
                start_timeout := t,
                exported_rpc_classes := ex,
                required_rpc_classes := rq } }

/-- A concrete valid manifest used by the concrete scenarios. -/
def testManifest : PluginInfo :=
  { service := some "plugin.main.TestPlugin", start_timeout := 5 }

/-- A concrete remote repository. -/
def testRemote : RepoContent :=
  { manifest := .parsed testManifest, hasRequirements := false }

/-- A freshly discovered plugin: nothing on disk, no db row. -/
def wFresh : World :=
  { plugin := { name := "plugin1", description := "d", remote_url := "u" },
    remote := testRemote, sysPath := ["site-packages"] }

/-- The world after a successful `install` of the fresh plugin. -/
def wInstalled : World :=
  resultWorld (PluginManager.install wFresh).2

/-- The world left behind by `activate` failing on the installed but
not-enabled plugin. -/
def wActivateFail : World :=
  resultWorld (PluginManager.activate wInstalled).2

deriving instance DecidableEq for Except

/-- The world after enabling the installed plugin. -/
def wEnabled : World :=
  resultWorld (PluginManager.enable wInstalled).2

/-- The world after activating the enabled plugin. -/
def wActive : World :=
  resultWorld (PluginManager.activate wEnabled).2

/-- The event trace `PluginManager.stop` emits. -/
def stopTrace (ws : List World) : List Event :=
  (ws.map (fun _ => hookList.reverse.map
    (fun h => Event.call h .before .deactivate))).flatten ++
  (ws.map (fun _ => hookList.reverse.map
    (fun h => Event.call h .after .deactivate))).flatten ++
  hookList.map Event.hookStop

/-- Worlds reachable when `install` is only ever invoked on a plugin that
is not currently enabled (the discipline the rest of the lifecycle
enforces implicitly, but which no `before_install` hook checks). -/
inductive ReachableGuarded : World → Prop where
  | loaded (w w' : World) : w.fresh → loadPlugin w = .ok w' → ReachableGuarded w'
  | step (op : Op) (w : World) :
      (op = .install → w.plugin.enabled = false) → ReachableGuarded w →
      ReachableGuarded (resultWorld (stepOp op w).2)

/-- The world after re-installing the running plugin. -/
def wReinstalled : World :=
  resultWorld (PluginManager.install wActive).2

/-- The fresh plugin in an environment where the clone fails. -/
def wCloneFail : World :=
  { wFresh with cloneOk := false }

/-- The full event trace of one successful operation: all hooks of the
operation's order, phase by phase. -/
def fullTrace (op : Op) : List Event :=
  (opHooks op).map (fun h => Event.call h .before op) ++
  (opHooks op).map (fun h => Event.call h .on op) ++
  (opHooks op).map (fun h => Event.call h .after op)

/-- With `load_service=False`, `load_plugin_json` either succeeds having
popped the last `sys.path` entry, or raises a PluginLoadError, or raises
the IndexError of popping an empty `sys.path`. -/
theorem load_plugin_json_false_shape (ip : String) (f : ManifestFile) (sp : List String) :
    (∃ r, load_plugin_json ip f false sp = (.ok r, sp.dropLast)) ∨
    (∃ m sp2, load_plugin_json ip f false sp = (.error (.pluginLoadError m), sp2) ∧
      (sp2 = sp ∨ sp2 = sp.dropLast)) ∨
    (load_plugin_json ip f false sp = (.error .indexError, sp) ∧ sp = []) := by
  cases f with
  | missing =>
      right; left
      exact ⟨"Error opening plugin.json.", sp, by simp [load_plugin_json], .inl rfl⟩
  | malformed =>
      right; left
      exact ⟨"Error parsing plugin.json.", sp, by simp [load_plugin_json], .inl rfl⟩
  | parsed info =>
      by_cases hsp : sp.isEmpty
      · have hnil : sp = [] := by simpa using hsp
        cases hsv : info.service with
        | none =>
            right; right
            refine ⟨?_, hnil⟩
            simp [load_plugin_json, load_plugin_json_try, popLast, hsv, hnil]
        | some fq =>
            right; right
            refine ⟨?_, hnil⟩
            by_cases hdot : containsDot fq <;>
              simp [load_plugin_json, load_plugin_json_try, popLast, hsv, hdot, hnil]
      · cases hsv : info.service with
        | none =>
            right; left
            exact ⟨"Required field not found in plugin.json.", sp.dropLast,
              by simp [load_plugin_json, load_plugin_json_try, popLast, hsv, hsp], .inr rfl⟩
        | some fq =>
            by_cases hdot : containsDot fq
            · by_cases hex : ∃ x ∈ info.exported_rpc_classes, x ∉ VALID_CLASSES
              · right; left
                exact ⟨"Invalid rpc_class exported.", sp.dropLast,
                  by simp [load_plugin_json, load_plugin_json_try, popLast,
                    hsv, hdot, hsp, hex], .inr rfl⟩
              · by_cases hrq : ∃ x ∈ info.required_rpc_classes, x ∉ VALID_CLASSES
                · right; left
                  exact ⟨"Invalid dependencies.", sp.dropLast,
                    by simp [load_plugin_json, load_plugin_json_try, popLast,
                      hsv, hdot, hsp, hex, hrq], .inr rfl⟩
                · left
                  refine ⟨{ package_path := fq, start_timeout := info.start_timeout,
                            service_name := (rsplitDot fq).2, module_loaded := false,
                            exported_rpc_classes := info.exported_rpc_classes,
                            required_rpc_classes := info.required_rpc_classes }, ?_⟩
                  simp [load_plugin_json, load_plugin_json_try, popLast,
                    hsv, hdot, hsp, hex, hrq]
            · right; left
              exact ⟨"Bad 'service' specification in plugin.json.", sp.dropLast,
                by simp [load_plugin_json, load_plugin_json_try, popLast, hsv, hdot, hsp],
                .inr rfl⟩

/-- Hook `PluginJsonHook.before_activate` touches only `sys.path` and the
manifest-derived fields; on failure it raises a PluginLoadError, except for
the IndexError of popping an empty `sys.path`. -/
theorem json_before_shape (w : World) :
    (∃ sp t ex rq, PluginJsonHook.before_activate w = .ok (w.setManifest sp t ex rq)) ∨
    (∃ e sp, PluginJsonHook.before_activate w = .error (e, w.setSysPath sp) ∧
      ((∃ m, e = .pluginLoadError m) ∨ (e = .indexError ∧ w.sysPath = []))) := by
  rcases load_plugin_json_false_shape w.installPath
      (match w.dirContent with
        | some c => c.manifest
        | none => ManifestFile.missing) w.sysPath with
    ⟨r, hr⟩ | ⟨m, sp2, hr, _⟩ | ⟨hr, hnil⟩
  · left
    exact ⟨w.sysPath.dropLast, r.start_timeout, r.exported_rpc_classes,
      r.required_rpc_classes, by simp [PluginJsonHook.before_activate, hr, World.setManifest]⟩
  · right
    exact ⟨.pluginLoadError m, sp2,
      by simp [PluginJsonHook.before_activate, hr, World.setSysPath], .inl ⟨m, rfl⟩⟩
  · right
    exact ⟨.indexError, w.sysPath,
      by simp [PluginJsonHook.before_activate, hr, World.setSysPath], .inr ⟨rfl, hnil⟩⟩

/-- The before phase of `activate`: either it aborts — with a
PluginLoadError (or the IndexError of an empty `sys.path`) — leaving every
field except `sys.path` and the manifest-derived ones untouched, or it
completes with all six hooks visited, which requires the plugin to be
installed and enabled. -/
theorem activate_before_cases (w : World) :
    (∃ evs e w', runPhase .before .activate hookList w = (evs, .error (e, w')) ∧
      ((∃ m, e = .pluginLoadError m) ∨ (e = .indexError ∧ w.sysPath = [])) ∧
      w'.dirContent = w.dirContent ∧ w'.venvExists = w.venvExists ∧
      w'.dbRow = w.dbRow ∧ w'.plugin.db_plugin = w.plugin.db_plugin ∧
      w'.plugin.active = w.plugin.active ∧ w'.plugin.token = w.plugin.token ∧
      w'.plugin.service = w.plugin.service ∧ w'.log = w.log) ∨
    (∃ sp t ex rq, runPhase .before .activate hookList w =
        (hookList.map (fun h => Event.call h .before .activate),
         .ok (w.setManifest sp t ex rq)) ∧
      w.installed = true ∧ w.plugin.enabled = true) := by
  cases hdc : w.dirContent with
  | none =>
      left
      refine ⟨[.call .venvH .before .activate, .call .fsH .before .activate],
        .pluginLoadError "Plugin not installed.", w, ?_, .inl ⟨_, rfl⟩,
        hdc, rfl, rfl, rfl, rfl, rfl, rfl, rfl⟩
      simp [runPhase, hookList, dispatch, PluginFilesStateHook.before_activate,
        PluginFilesStateHook.before_enable, hdc]
  | some c =>
      rcases json_before_shape w with ⟨sp, t, ex, rq, hjson⟩ | ⟨e, sp, hjson, hcls⟩
      · by_cases hinst : w.installed
        · by_cases henb : w.plugin.enabled
          · right
            refine ⟨sp, t, ex, rq, ?_, hinst, henb⟩
            simp [runPhase, hookList, dispatch, PluginFilesStateHook.before_activate,
              PluginFilesStateHook.before_enable, hdc, hjson,
              PluginExecutionStateHook.before_activate,
              PluginExecutionStateHook.before_enable, World.setManifest,
              World.installed, PluginState.enabled] at *
            simp [hjson, hdc, hinst, henb, World.installed, PluginState.enabled]
          · left
            refine ⟨hookList.map (fun h => Event.call h .before .activate),
              .pluginLoadError "Plugin is not enabled.",
              w.setManifest sp t ex rq, ?_, .inl ⟨_, rfl⟩,
              by simp [World.setManifest, hdc],
              by simp [World.setManifest], by simp [World.setManifest],
              by simp [World.setManifest], by simp [World.setManifest],
              by simp [World.setManifest], by simp [World.setManifest],
              by simp [World.setManifest]⟩
            have hinst2 : (w.setManifest sp t ex rq).installed = true := by
              simpa [World.setManifest, World.installed] using hinst
            have henb2 : ¬ (w.setManifest sp t ex rq).plugin.enabled = true := by
              simpa [World.setManifest, PluginState.enabled] using henb
            simp [runPhase, hookList, dispatch, PluginFilesStateHook.before_activate,
              PluginFilesStateHook.before_enable, hdc, hjson,
              PluginExecutionStateHook.before_activate,
              PluginExecutionStateHook.before_enable, hinst2, henb2]
        · left
          refine ⟨hookList.map (fun h => Event.call h .before .activate),
            .pluginLoadError "Plugin is not installed.",
            w.setManifest sp t ex rq, ?_, .inl ⟨_, rfl⟩,
            by simp [World.setManifest, hdc],
            by simp [World.setManifest], by simp [World.setManifest],
            by simp [World.setManifest], by simp [World.setManifest],
            by simp [World.setManifest], by simp [World.setManifest],
            by simp [World.setManifest]⟩
          have hinst2 : ¬ (w.setManifest sp t ex rq).installed = true := by
            simpa [World.setManifest, World.installed] using hinst
          simp [runPhase, hookList, dispatch, PluginFilesStateHook.before_activate,
            PluginFilesStateHook.before_enable, hdc, hjson,
            PluginExecutionStateHook.before_activate,
            PluginExecutionStateHook.before_enable, hinst2]
      · left
        refine ⟨[.call .venvH .before .activate, .call .fsH .before .activate,
          .call .dbH .before .activate, .call .jsonH .before .activate],
          e, w.setSysPath sp, ?_, ?_, by simp [World.setSysPath, hdc],
          by simp [World.setSysPath], by simp [World.setSysPath],
          by simp [World.setSysPath], by simp [World.setSysPath],
          by simp [World.setSysPath], by simp [World.setSysPath],
          by simp [World.setSysPath]⟩
        · simp [runPhase, hookList, dispatch, PluginFilesStateHook.before_activate,
            PluginFilesStateHook.before_enable, hdc, hjson]
        · rcases hcls with h | h
          · exact .inl h
          · exact .inr h

/-- C1 (amended): `activate(p)` succeeds only if `installed(p) ∧ enabled(p)`;
when `¬(installed ∧ enabled)` (and `sys.path` is nonempty) it fails with a
typed PluginLoadError and leaves installed_dir, the db record, the active
flag, the token, the process handle and the effect log unchanged — but not
necessarily `start_timeout` and the manifest-derived fields, which
`PluginJsonHook.before_activate` may overwrite before the validation
failure surfaces. -/
theorem activate_requires_installed_enabled (w : World) :
    (∀ evs w', PluginManager.activate w = (evs, .ok w') →
      w.installed = true ∧ w.plugin.enabled = true) ∧
    (w.sysPath ≠ [] → (w.installed && w.plugin.enabled) = false →
      ∃ evs m w', PluginManager.activate w = (evs, .error (.pluginLoadError m, w')) ∧
        w'.dirContent = w.dirContent ∧ w'.venvExists = w.venvExists ∧
        w'.dbRow = w.dbRow ∧ w'.plugin.db_plugin = w.plugin.db_plugin ∧
        w'.plugin.active = w.plugin.active ∧ w'.plugin.token = w.plugin.token ∧
        w'.plugin.service = w.plugin.service ∧ w'.log = w.log) := by
  constructor
  · intro evs w' h
    rcases activate_before_cases w with
      ⟨evs0, e, w0, heq, _⟩ | ⟨sp, t, ex, rq, heq, hin, hen⟩
    · simp [PluginManager.activate, runOp, heq] at h
    · exact ⟨hin, hen⟩
  · intro hsp hne
    rcases activate_before_cases w with
      ⟨evs0, e, w0, heq, hcls, h1, h2, h3, h4, h5, h6, h7, h8⟩ |
      ⟨sp, t, ex, rq, heq, hin, hen⟩
    · rcases hcls with ⟨m, rfl⟩ | ⟨_, hnil⟩
      · exact ⟨evs0, m, w0, by simp [PluginManager.activate, runOp, heq],
          h1, h2, h3, h4, h5, h6, h7, h8⟩
      · exact absurd hnil hsp
    · simp [hin, hen] at hne

/-- C1 counterexample: on an installed but not-enabled plugin, `activate`
fails with the typed PluginLoadError, yet the failed call has already
overwritten `start_timeout` (30 → 5) with the manifest's value, so the
state is not left unchanged. -/
theorem activate_failure_mutates_state :
    wInstalled.installed = true ∧ wInstalled.plugin.enabled = false ∧
    wInstalled.plugin.start_timeout = 30 ∧
    resultErr (PluginManager.activate wInstalled).2 =
      some (.pluginLoadError "Plugin is not enabled.") ∧
    wActivateFail.plugin.start_timeout = 5 := by decide

/-- Witness for C1: the amended theorem applied to the fresh, never
installed plugin. -/
theorem activate_requires_installed_enabled_witness :
    ∃ evs m w', PluginManager.activate wFresh = (evs, .error (.pluginLoadError m, w')) ∧
      w'.dirContent = wFresh.dirContent ∧ w'.venvExists = wFresh.venvExists ∧
      w'.dbRow = wFresh.dbRow ∧ w'.plugin.db_plugin = wFresh.plugin.db_plugin ∧
      w'.plugin.active = wFresh.plugin.active ∧ w'.plugin.token = wFresh.plugin.token ∧
      w'.plugin.service = wFresh.plugin.service ∧ w'.log = wFresh.log :=
  (activate_requires_installed_enabled wFresh).2 (by decide) (by decide)

/-- C10: no hook implements `before_deactivate`, so the validation phase of
`deactivate` passes every plugin unchanged; when no process handle was ever
assigned, the execution hook's `on_deactivate` — the first on-step in
reverse order — raises an untyped AttributeError on the None handle before
the bus-registration hook's unregistration runs, leaving the token and the
rest of the state unchanged. -/
theorem deactivate_without_service (w : World) (h : w.plugin.service = none) :
    (runPhase .before .deactivate hookList.reverse w).2 = .ok w ∧
    PluginManager.deactivate w =
      (hookList.reverse.map (fun g => Event.call g .before .deactivate) ++
        [Event.call .execH .on .deactivate],
       .error (.attributeError "service_stop", w)) := by
  refine ⟨rfl, ?_⟩
  simp [PluginManager.deactivate, runOp, runPhase, hookList, dispatch,
    PluginExecutionStateHook.on_deactivate, h]

/-- Witness for C10: the installed but never-activated plugin. -/
theorem deactivate_without_service_witness :
    (runPhase .before .deactivate hookList.reverse wInstalled).2 = .ok wInstalled ∧
    PluginManager.deactivate wInstalled =
      (hookList.reverse.map (fun g => Event.call g .before .deactivate) ++
        [Event.call .execH .on .deactivate],
       .error (.attributeError "service_stop", wInstalled)) :=
  deactivate_without_service wInstalled (by decide)

/-- C7: `uninstall` on an active plugin fails first with the typed
"must be stopped" error; on an enabled (but inactive) plugin with the typed
"must disable first" error, both leaving the state untouched; on a
never-installed plugin it completes without error, unchanged, and the
returned snapshot reports `installed = false`. -/
theorem uninstall_guards (w : World) :
    (w.plugin.active = true →
      PluginManager.uninstall w = ([.call .execH .before .uninstall],
        .error (.pluginLoadError "Plugin must be stopped first.", w))) ∧
    (w.plugin.active = false → w.plugin.enabled = true →
      PluginManager.uninstall w = ([.call .execH .before .uninstall],
        .error (.pluginLoadError "Must disable the plugin first.", w))) ∧
    (w.dirContent = none → w.venvExists = false → w.plugin.db_plugin = none →
      w.plugin.active = false →
      ∃ evs, PluginManager.uninstall w = (evs, .ok w) ∧ w.info.installed = false) := by
  refine ⟨?_, ?_, ?_⟩
  · intro hact
    simp [PluginManager.uninstall, runOp, runPhase, hookList, dispatch,
      PluginExecutionStateHook.before_uninstall, PluginExecutionStateHook.before_disable,
      hact]
  · intro hact hen
    simp [PluginManager.uninstall, runOp, runPhase, hookList, dispatch,
      PluginExecutionStateHook.before_uninstall, PluginExecutionStateHook.before_disable,
      hact, hen]
  · intro hdc hv hdb hact
    have hen : w.plugin.enabled = false := by
      simp [PluginState.enabled, hdb]
    refine ⟨hookList.reverse.map (fun g => Event.call g .before .uninstall) ++
      hookList.reverse.map (fun g => Event.call g .on .uninstall) ++
      hookList.reverse.map (fun g => Event.call g .after .uninstall), ?_, ?_⟩
    · simp [PluginManager.uninstall, runOp, runPhase, hookList, dispatch,
        PluginExecutionStateHook.before_uninstall, PluginExecutionStateHook.before_disable,
        VirtualEnvHook.on_uninstall, PluginFilesStateHook.on_uninstall,
        PluginDBHook.on_uninstall, hact, hen, hdb, hdc, hv]
    · simp [World.info, World.installed, hdc]

/-- Witness for C7: all three guards exercised on concrete states — the
running plugin, the enabled plugin, and the fresh one. -/
theorem uninstall_guards_witness :
    (PluginManager.uninstall wActive = ([.call .execH .before .uninstall],
      .error (.pluginLoadError "Plugin must be stopped first.", wActive))) ∧
    (PluginManager.uninstall wEnabled = ([.call .execH .before .uninstall],
      .error (.pluginLoadError "Must disable the plugin first.", wEnabled))) ∧
    (∃ evs, PluginManager.uninstall wFresh = (evs, .ok wFresh) ∧
      wFresh.info.installed = false) :=
  ⟨(uninstall_guards wActive).1 (by decide),
   (uninstall_guards wEnabled).2.1 (by decide) (by decide),
   (uninstall_guards wFresh).2.2 (by decide) (by decide) (by decide) (by decide)⟩

/-- No hook overrides `before_deactivate` or `after_deactivate`, so those
phases are pure no-ops. -/
theorem runPhase_deactivate_noop (ph : Phase) (hph : ph = .before ∨ ph = .after)
    (w : World) :
    runPhase ph .deactivate hookList.reverse w =
      (hookList.reverse.map (fun h => Event.call h ph .deactivate), .ok w) := by
  rcases hph with rfl | rfl <;> rfl

/-- Each loop of `PluginManager.stop` visits every plugin, emits the
reverse-order events of its phase, and changes nothing. -/
theorem stopPass_noop (ph : Phase) (hph : ph = .before ∨ ph = .after)
    (ws : List World) :
    stopPass ph ws =
      ((ws.map (fun _ => hookList.reverse.map
        (fun h => Event.call h ph .deactivate))).flatten, .ok ws) := by
  induction ws with
  | nil => rfl
  | cons w t ih =>
      simp [stopPass, runPhase_deactivate_noop ph hph, ih]

/-- C8: `PluginManager.stop` runs `before_deactivate` and then
`after_deactivate` for every plugin in reverse hook order, never invokes
`on_deactivate`, then calls `stop()` exactly once per hook — and leaves
every plugin state (in particular its process handle) untouched. -/
theorem stop_skips_on_deactivate (ws : List World) :
    PluginManager.stop ws = (stopTrace ws, .ok ws) ∧
    (∀ h, Event.call h .on .deactivate ∉ stopTrace ws) ∧
    (stopTrace ws).count (Event.hookStop .venvH) = 1 ∧
    (stopTrace ws).count (Event.hookStop .fsH) = 1 ∧
    (stopTrace ws).count (Event.hookStop .dbH) = 1 ∧
    (stopTrace ws).count (Event.hookStop .jsonH) = 1 ∧
    (stopTrace ws).count (Event.hookStop .messagingH) = 1 ∧
    (stopTrace ws).count (Event.hookStop .execH) = 1 := by
  refine ⟨?_, ?_, ?_, ?_, ?_, ?_, ?_, ?_⟩
  · simp [PluginManager.stop, stopPass_noop .before (.inl rfl),
      stopPass_noop .after (.inr rfl), stopTrace]
  · intro h
    simp [stopTrace, hookList, List.mem_flatten]
  all_goals
    simp [stopTrace, hookList, List.count_append, List.count_flatten,
      List.map_replicate, List.sum_replicate, List.count_cons, List.count_nil]

/-- The invariant chain only depends on the installed dir, the venv, the
attached record and the active flag. -/
theorem chainInv_of_fields (w w' : World)
    (h1 : w'.dirContent = w.dirContent) (h2 : w'.venvExists = w.venvExists)
    (h4 : w'.plugin.db_plugin = w.plugin.db_plugin)
    (h5 : w'.plugin.active = w.plugin.active)
    (hinv : chainInv w) : chainInv w' := by
  unfold chainInv World.installed PluginState.enabled at *
  rw [h1, h2, h4, h5]
  exact hinv

/-- Operation `deactivate` preserves the invariant chain. -/
theorem chainInv_deactivate (w : World) (hinv : chainInv w) :
    chainInv (resultWorld (PluginManager.deactivate w).2) := by
  cases hsvc : w.plugin.service with
  | none =>
      simpa [PluginManager.deactivate, runOp, runPhase, hookList, dispatch,
        PluginExecutionStateHook.on_deactivate, hsvc, resultWorld] using hinv
  | some s =>
      simp [PluginManager.deactivate, runOp, runPhase, hookList, dispatch,
        PluginExecutionStateHook.on_deactivate, MessagingRegistrationHook.on_deactivate,
        hsvc, resultWorld, World.act, chainInv, World.installed, PluginState.enabled]
      intro hen
      have hi := hinv.2 hen
      simpa [World.installed] using hi

/-- Operation `disable` preserves the invariant chain. -/
theorem chainInv_disable (w : World) (hinv : chainInv w) :
    chainInv (resultWorld (PluginManager.disable w).2) := by
  cases hact : w.plugin.active with
  | true =>
      simpa [PluginManager.disable, runOp, runPhase, hookList, dispatch,
        PluginExecutionStateHook.before_disable, hact, resultWorld] using hinv
  | false =>
      cases hdb : w.plugin.db_plugin with
      | none =>
          simpa [PluginManager.disable, runOp, runPhase, hookList, dispatch,
            PluginExecutionStateHook.before_disable, PluginDBHook.on_disable,
            hact, hdb, resultWorld] using hinv
      | some r =>
          simp [PluginManager.disable, runOp, runPhase, hookList, dispatch,
            PluginExecutionStateHook.before_disable, PluginDBHook.on_disable,
            hact, hdb, resultWorld, World.act, chainInv, World.installed,
            PluginState.enabled]

/-- Operation `enable` preserves the invariant chain. -/
theorem chainInv_enable (w : World) (hinv : chainInv w) :
    chainInv (resultWorld (PluginManager.enable w).2) := by
  by_cases hv : w.venvExists
  · cases hdc : w.dirContent with
    | none =>
        simpa [PluginManager.enable, runOp, runPhase, hookList, dispatch,
          VirtualEnvHook.before_enable, PluginFilesStateHook.before_enable,
          hv, hdc, resultWorld] using hinv
    | some c =>
        cases hdb : w.plugin.db_plugin with
        | none =>
            simpa [PluginManager.enable, runOp, runPhase, hookList, dispatch,
              VirtualEnvHook.before_enable, PluginFilesStateHook.before_enable,
              PluginExecutionStateHook.before_enable, PluginDBHook.on_enable,
              World.installed, hv, hdc, hdb, resultWorld] using hinv
        | some r =>
            simp [PluginManager.enable, runOp, runPhase, hookList, dispatch,
              VirtualEnvHook.before_enable, PluginFilesStateHook.before_enable,
              PluginExecutionStateHook.before_enable, PluginDBHook.on_enable,
              World.installed, hv, hdc, hdb, resultWorld, World.act, chainInv,
              PluginState.enabled]
  · simpa [PluginManager.enable, runOp, runPhase, hookList, dispatch,
      VirtualEnvHook.before_enable, hv, resultWorld] using hinv

/-- Operation `uninstall` preserves the invariant chain. -/
theorem chainInv_uninstall (w : World) (hinv : chainInv w) :
    chainInv (resultWorld (PluginManager.uninstall w).2) := by
  cases hact : w.plugin.active with
  | true =>
      simpa [PluginManager.uninstall, runOp, runPhase, hookList, dispatch,
        PluginExecutionStateHook.before_uninstall,
        PluginExecutionStateHook.before_disable, hact, resultWorld] using hinv
  | false =>
      cases hen : w.plugin.enabled with
      | true =>
          simpa [PluginManager.uninstall, runOp, runPhase, hookList, dispatch,
            PluginExecutionStateHook.before_uninstall,
            PluginExecutionStateHook.before_disable, hact, hen, resultWorld] using hinv
      | false =>
          cases hdb : w.plugin.db_plugin with
          | none =>
              cases hdc : w.dirContent <;> by_cases hv : w.venvExists <;>
                simp [PluginManager.uninstall, runOp, runPhase, hookList, dispatch,
                  PluginExecutionStateHook.before_uninstall,
                  PluginExecutionStateHook.before_disable, PluginDBHook.on_uninstall,
                  PluginFilesStateHook.on_uninstall, VirtualEnvHook.on_uninstall,
                  hact, hen, hdb, hdc, hv, resultWorld, World.act, chainInv,
                  World.installed, PluginState.enabled]
          | some r =>
              have hre : r.enabled = false := by
                simpa [PluginState.enabled, hdb] using hen
              cases hrow : w.dbRow <;> cases hdc : w.dirContent <;>
                by_cases hv : w.venvExists <;>
                simp [PluginManager.uninstall, runOp, runPhase, hookList, dispatch,
                  PluginExecutionStateHook.before_uninstall,
                  PluginExecutionStateHook.before_disable, PluginDBHook.on_uninstall,
                  PluginFilesStateHook.on_uninstall, VirtualEnvHook.on_uninstall,
                  hact, hen, hdb, hre, hrow, hdc, hv, resultWorld, World.act, chainInv,
                  World.installed, PluginState.enabled]

/-- If the before phase aborts, the whole operation returns that error. -/
theorem runOp_before_err (op : Op) (hs : List Hook) (w : World)
    (evs : List Event) (e : PyError × World)
    (h : runPhase .before op hs w = (evs, .error e)) :
    runOp op hs w = (evs, .error e) := by
  unfold runOp
  rw [h]

/-- If the before phase passed and the on phase aborts, the operation
returns the on-phase error. -/
theorem runOp_on_err (op : Op) (hs : List Hook) (w w1 : World)
    (evs1 evs2 : List Event) (e : PyError × World)
    (hb : runPhase .before op hs w = (evs1, .ok w1))
    (ho : runPhase .on op hs w1 = (evs2, .error e)) :
    runOp op hs w = (evs1 ++ evs2, .error e) := by
  simp [runOp, hb, ho]

/-- If before and on passed, the operation ends with the after phase. -/
theorem runOp_after (op : Op) (hs : List Hook) (w w1 w2 : World)
    (evs1 evs2 : List Event)
    (hb : runPhase .before op hs w = (evs1, .ok w1))
    (ho : runPhase .on op hs w1 = (evs2, .ok w2)) :
    runOp op hs w = (evs1 ++ evs2 ++ (runPhase .after op hs w2).1,
      (runPhase .after op hs w2).2) := by
  rcases hha : runPhase .after op hs w2 with ⟨evs3, r⟩
  simp [runOp, hb, ho, hha]

/-- A state that is both enabled and installed satisfies the chain. -/
theorem chainInv_of_true (w : World) (he : w.plugin.enabled = true)
    (hi : w.installed = true) : chainInv w :=
  ⟨fun _ => he, fun _ => hi⟩

/-- Operation `install` preserves the invariant chain when the plugin is not
currently enabled (the code has no `before_install` guard, so this
hypothesis cannot be dropped; see the C4 counterexample). -/
theorem chainInv_install (w : World) (hinv : chainInv w)
    (hg : w.plugin.enabled = false) :
    chainInv (resultWorld (PluginManager.install w).2) := by
  have hact : w.plugin.active = false := by
    cases h : w.plugin.active
    · rfl
    · have h2 := hinv.1 h
      rw [hg] at h2
      cases h2
  have hg2 : (w.plugin.db_plugin.map DbRow.enabled).getD false = false := hg
  cases hdc : w.dirContent with
  | none =>
      by_cases hv : w.venvExists <;> cases hrow : w.dbRow <;>
        by_cases hck : w.cloneOk <;>
        simp [PluginManager.install, runOp, runPhase, hookList, dispatch,
          VirtualEnvHook.on_install, VirtualEnvHook.after_install,
          PluginFilesStateHook.on_install, PluginFilesStateHook.after_install,
          PluginDBHook.on_install, World.act, resultWorld, chainInv,
          World.installed, PluginState.enabled, hdc, hv, hrow, hck, hact, hg, hg2]
  | some c =>
      by_cases hreq : c.hasRequirements <;> by_cases hv : w.venvExists <;>
        cases hrow : w.dbRow <;> by_cases hck : w.cloneOk <;>
        simp [PluginManager.install, runOp, runPhase, hookList, dispatch,
          VirtualEnvHook.on_install, VirtualEnvHook.after_install,
          PluginFilesStateHook.on_install, PluginFilesStateHook.after_install,
          PluginDBHook.on_install, World.act, resultWorld, chainInv,
          World.installed, PluginState.enabled, hdc, hreq, hv, hrow, hck, hact, hg, hg2]

/-- The on phase of `activate` never touches the attached record, the
installed dir or the venv, whatever its outcome. -/
theorem activate_on_frame (w4 : World) :
    (resultWorld (runPhase .on .activate hookList w4).2).plugin.db_plugin =
      w4.plugin.db_plugin ∧
    (resultWorld (runPhase .on .activate hookList w4).2).dirContent = w4.dirContent ∧
    (resultWorld (runPhase .on .activate hookList w4).2).venvExists = w4.venvExists := by
  by_cases hreg : w4.registerOk
  · by_cases hbl : pyBlank w4.busToken
    · simp [runPhase, hookList, dispatch, MessagingRegistrationHook.on_activate,
        PluginExecutionStateHook.on_activate, World.act, resultWorld, hreg, hbl]
    · by_cases hst : w4.startOk <;>
        simp [runPhase, hookList, dispatch, MessagingRegistrationHook.on_activate,
          PluginExecutionStateHook.on_activate, World.act, resultWorld, hreg, hbl, hst]
  · simp [runPhase, hookList, dispatch, MessagingRegistrationHook.on_activate,
      resultWorld, hreg]

/-- The after phase of `activate` only sets `active := True`. -/
theorem activate_after_result (w6 : World) :
    runPhase .after .activate hookList w6 =
      (hookList.map (fun h => Event.call h .after .activate),
       .ok { w6 with plugin := { w6.plugin with active := true } }) := rfl

/-- Operation `activate` preserves the invariant chain. -/
theorem chainInv_activate (w : World) (hinv : chainInv w) :
    chainInv (resultWorld (PluginManager.activate w).2) := by
  rcases activate_before_cases w with
    ⟨evs0, e, w0, heq, hcls, h1, h2, h3, h4, h5, h6, h7, h8⟩ |
    ⟨sp, t, ex, rq, heq, hin, hen⟩
  · have hres : resultWorld (PluginManager.activate w).2 = w0 := by
      simp [PluginManager.activate, runOp, heq, resultWorld]
    rw [hres]
    exact chainInv_of_fields w w0 h1 h2 h4 h5 hinv
  · have hin2 := hin
    simp only [World.installed, Bool.and_eq_true] at hin2
    have hen2 : (w.plugin.db_plugin.map DbRow.enabled).getD false = true := hen
    rcases hon : runPhase .on .activate hookList (w.setManifest sp t ex rq) with ⟨evs2, r2⟩
    have hfr := activate_on_frame (w.setManifest sp t ex rq)
    rw [hon] at hfr
    cases r2 with
    | error e =>
        have hr := runOp_on_err .activate hookList w _ _ _ _ heq hon
        rw [show PluginManager.activate w = runOp .activate hookList w from rfl, hr]
        refine chainInv_of_true _ ?_ ?_
        · have h1 := hfr.1
          simp only [resultWorld, World.setManifest] at h1 ⊢
          simp [PluginState.enabled, h1, hen2]
        · have h2 := hfr.2.1
          have h3 := hfr.2.2
          simp only [resultWorld, World.setManifest] at h2 h3 ⊢
          simp [World.installed, h2, h3, hin2.1, hin2.2]
    | ok w6 =>
        have hr := runOp_after .activate hookList w _ _ _ _ heq hon
        rw [show PluginManager.activate w = runOp .activate hookList w from rfl, hr]
        rw [activate_after_result w6]
        refine chainInv_of_true _ ?_ ?_
        · have h1 := hfr.1
          simp only [resultWorld, World.setManifest] at h1 ⊢
          simp [PluginState.enabled, h1, hen2]
        · have h2 := hfr.2.1
          have h3 := hfr.2.2
          simp only [resultWorld, World.setManifest] at h2 h3 ⊢
          simp [World.installed, h2, h3, hin2.1, hin2.2]

/-- A successful per-plugin `load` of a fresh state establishes the
invariant chain. -/
theorem chainInv_load (w w' : World) (hf : w.fresh) (h : loadPlugin w = .ok w') :
    chainInv w' := by
  obtain ⟨hdb, hact, htok, hsvc, hto, hex, hrq⟩ := hf
  cases hrow : w.dbRow with
  | none =>
      simp [loadPlugin, hrow, PluginState.enabled, hsvc] at h
      subst h
      simp [chainInv, PluginState.enabled, hact]
  | some r =>
      cases hre : r.enabled with
      | false =>
          simp [loadPlugin, hrow, hre, PluginState.enabled, hsvc] at h
          subst h
          simp [chainInv, PluginState.enabled, hre, hact]
      | true =>
          by_cases hreg : w.registerOk
          · by_cases hin : (w.dirContent.isSome && w.venvExists) = true
            · by_cases hbl : pyBlank w.busToken
              · exfalso
                simp [loadPlugin, hrow, hre, hreg, hbl, hsvc, PluginState.enabled,
                  MessagingRegistrationHook.on_activate,
                  PluginExecutionStateHook.before_activate,
                  PluginExecutionStateHook.before_enable,
                  PluginExecutionStateHook.on_activate,
                  World.act, World.installed, hin] at h
              · by_cases hst : w.startOk
                · simp [loadPlugin, hrow, hre, hreg, hbl, hst, hsvc, PluginState.enabled,
                    MessagingRegistrationHook.on_activate,
                    PluginExecutionStateHook.before_activate,
                    PluginExecutionStateHook.before_enable,
                    PluginExecutionStateHook.on_activate,
                    PluginExecutionStateHook.after_activate,
                    World.act, World.installed, hin] at h
                  subst h
                  refine chainInv_of_true _ ?_ ?_
                  · simp [PluginState.enabled, hre]
                  · simpa [World.installed] using hin
                · exfalso
                  simp [loadPlugin, hrow, hre, hreg, hbl, hst, hsvc, PluginState.enabled,
                    MessagingRegistrationHook.on_activate,
                    PluginExecutionStateHook.before_activate,
                    PluginExecutionStateHook.before_enable,
                    PluginExecutionStateHook.on_activate,
                    World.act, World.installed, hin] at h
            · exfalso
              simp [loadPlugin, hrow, hre, hreg, hsvc, PluginState.enabled,
                MessagingRegistrationHook.on_activate,
                PluginExecutionStateHook.before_activate,
                PluginExecutionStateHook.before_enable,
                World.act, World.installed, hin] at h
          · exfalso
            simp [loadPlugin, hrow, hre, hreg, hsvc, PluginState.enabled,
              MessagingRegistrationHook.on_activate] at h

/-- C4 (amended): the chain `active ⇒ enabled ⇒ installed` holds in every
state reachable from a freshly loaded state by lifecycle operations —
whether they succeed or raise — provided `install` is only invoked on
not-currently-enabled plugins.  (Unguarded re-install of an enabled or
active plugin breaks the chain: see the counterexample.) -/
theorem chain_invariant_guarded (w : World) (h : ReachableGuarded w) :
    chainInv w := by
  induction h with
  | loaded w0 w' hf hl => exact chainInv_load w0 w' hf hl
  | step op w0 hg hr ih =>
      cases op with
      | install => exact chainInv_install w0 ih (hg rfl)
      | uninstall => exact chainInv_uninstall w0 ih
      | enable => exact chainInv_enable w0 ih
      | disable => exact chainInv_disable w0 ih
      | activate => exact chainInv_activate w0 ih
      | deactivate => exact chainInv_deactivate w0 ih

/-- C4 counterexample: install → enable → activate → install is a
reachable sequence (nothing guards `before_install`), and it ends in a
state that is active but no longer enabled — `PluginDBHook.on_install`
re-attached a fresh record whose enabled flag defaults to False — so the
claimed invariant chain is broken. -/
theorem chain_invariant_counterexample :
    Reachable wReinstalled ∧ wReinstalled.plugin.active = true ∧
    wReinstalled.plugin.enabled = false ∧ ¬ chainInv wReinstalled := by
  refine ⟨?_, by decide, by decide,
    fun hc => absurd (hc.1 (by decide)) (by decide)⟩
  have r0 : Reachable wFresh :=
    .loaded wFresh wFresh ⟨rfl, rfl, rfl, rfl, rfl, rfl, rfl⟩ (by decide)
  have r1 : Reachable wInstalled :=
    .stepOk .install wFresh wInstalled (stepOp .install wFresh).1 r0 (by decide)
  have r2 : Reachable wEnabled :=
    .stepOk .enable wInstalled wEnabled (stepOp .enable wInstalled).1 r1 (by decide)
  have r3 : Reachable wActive :=
    .stepOk .activate wEnabled wActive (stepOp .activate wEnabled).1 r2 (by decide)
  exact .stepOk .install wActive wReinstalled (stepOp .install wActive).1 r3 (by decide)

/-- Witness for C4: the guarded reachability of the running plugin's state,
where the invariant chain indeed holds. -/
theorem chain_invariant_guarded_witness : chainInv wActive := by
  have g0 : ReachableGuarded wFresh :=
    .loaded wFresh wFresh ⟨rfl, rfl, rfl, rfl, rfl, rfl, rfl⟩ (by decide)
  have g1 : ReachableGuarded wInstalled := .step .install wFresh (fun _ => by decide) g0
  have g2 : ReachableGuarded wEnabled := .step .enable wInstalled (fun h => nomatch h) g1
  have g3 : ReachableGuarded wActive := .step .activate wEnabled (fun h => nomatch h) g2
  exact chain_invariant_guarded wActive g3

/-- Witness for C8: manager shutdown over the running plugin's state. -/
theorem stop_skips_on_deactivate_witness :
    PluginManager.stop [wActive] = (stopTrace [wActive], .ok [wActive]) ∧
    (∀ h, Event.call h .on .deactivate ∉ stopTrace [wActive]) :=
  ⟨(stop_skips_on_deactivate [wActive]).1, (stop_skips_on_deactivate [wActive]).2.1⟩

/-- C9: after the manifest has been parsed, `load_plugin_json` pops the
last pre-existing `sys.path` entry on every return: with
`load_service=False` nothing was appended, yet the outer `finally` at
plugins.py line 86 still pops; with `load_service=True` the inner `finally`
at line 76 already popped the appended entry and the outer one pops again.
Here a successful parse shrinks `sys.path` from `["a", "b"]` to `["a"]` in
both modes. -/
theorem load_plugin_json_pops_sys_path :
    (load_plugin_json "p" (.parsed testManifest) false ["a", "b"]).2 = ["a"] ∧
    (load_plugin_json "p" (.parsed testManifest) true ["a", "b"]).2 = ["a"] ∧
    (∃ r, (load_plugin_json "p" (.parsed testManifest) false ["a", "b"]).1 = .ok r) ∧
    (∃ r, (load_plugin_json "p" (.parsed testManifest) true ["a", "b"]).1 = .ok r) := by
  exact ⟨by decide, by decide, ⟨_, rfl⟩, ⟨_, rfl⟩⟩

/-- Every `before_X` callback except the manifest hook's `before_activate`
returns or raises with the world unchanged. -/
theorem before_dispatch_frame (h : Hook) (op : Op) (w : World) :
    (h = Hook.jsonH ∧ op = Op.activate) ∨
    resultWorld (dispatch h .before op w) = w := by
  cases h with
  | venvH =>
      cases op with
      | enable =>
          right
          show resultWorld (VirtualEnvHook.before_enable w) = w
          unfold VirtualEnvHook.before_enable
          split <;> rfl
      | install => right; rfl
      | uninstall => right; rfl
      | disable => right; rfl
      | activate => right; rfl
      | deactivate => right; rfl
  | fsH =>
      cases op with
      | enable =>
          right
          show resultWorld (PluginFilesStateHook.before_enable w) = w
          unfold PluginFilesStateHook.before_enable
          split <;> rfl
      | activate =>
          right
          show resultWorld (PluginFilesStateHook.before_activate w) = w
          unfold PluginFilesStateHook.before_activate PluginFilesStateHook.before_enable
          split <;> rfl
      | install => right; rfl
      | uninstall => right; rfl
      | disable => right; rfl
      | deactivate => right; rfl
  | dbH =>
      cases op with
      | install => right; rfl
      | uninstall => right; rfl
      | enable => right; rfl
      | disable => right; rfl
      | activate => right; rfl
      | deactivate => right; rfl
  | jsonH =>
      cases op with
      | activate => exact .inl ⟨rfl, rfl⟩
      | install => right; rfl
      | uninstall => right; rfl
      | enable => right; rfl
      | disable => right; rfl
      | deactivate => right; rfl
  | messagingH =>
      cases op with
      | install => right; rfl
      | uninstall => right; rfl
      | enable => right; rfl
      | disable => right; rfl
      | activate => right; rfl
      | deactivate => right; rfl
  | execH =>
      cases op with
      | enable =>
          right
          show resultWorld (PluginExecutionStateHook.before_enable w) = w
          unfold PluginExecutionStateHook.before_enable
          split <;> rfl
      | activate =>
          right
          show resultWorld (PluginExecutionStateHook.before_activate w) = w
          unfold PluginExecutionStateHook.before_activate
            PluginExecutionStateHook.before_enable
          by_cases hi : w.installed <;> by_cases he : w.plugin.enabled <;>
            simp [hi, he, resultWorld]
      | disable =>
          right
          show resultWorld (PluginExecutionStateHook.before_disable w) = w
          unfold PluginExecutionStateHook.before_disable
          split <;> rfl
      | uninstall =>
          right
          show resultWorld (PluginExecutionStateHook.before_uninstall w) = w
          unfold PluginExecutionStateHook.before_uninstall
            PluginExecutionStateHook.before_disable
          by_cases ha : w.plugin.active <;> by_cases he : w.plugin.enabled <;>
            simp [ha, he, resultWorld]
      | install => right; rfl
      | deactivate => right; rfl

/-- Every `after_X` callback except the execution hook's `after_activate`
returns or raises with the world unchanged. -/
theorem after_dispatch_frame (h : Hook) (op : Op) (w : World) :
    (h = Hook.execH ∧ op = Op.activate) ∨
    resultWorld (dispatch h .after op w) = w := by
  cases h with
  | venvH =>
      cases op with
      | install =>
          right
          show resultWorld (VirtualEnvHook.after_install w) = w
          unfold VirtualEnvHook.after_install
          split <;> rfl
      | uninstall => right; rfl
      | enable => right; rfl
      | disable => right; rfl
      | activate => right; rfl
      | deactivate => right; rfl
  | fsH =>
      cases op with
      | install =>
          right
          show resultWorld (PluginFilesStateHook.after_install w) = w
          unfold PluginFilesStateHook.after_install
          split <;> rfl
      | uninstall => right; rfl
      | enable => right; rfl
      | disable => right; rfl
      | activate => right; rfl
      | deactivate => right; rfl
  | dbH =>
      cases op with
      | install => right; rfl
      | uninstall => right; rfl
      | enable => right; rfl
      | disable => right; rfl
      | activate => right; rfl
      | deactivate => right; rfl
  | jsonH =>
      cases op with
      | install => right; rfl
      | uninstall => right; rfl
      | enable => right; rfl
      | disable => right; rfl
      | activate => right; rfl
      | deactivate => right; rfl
  | messagingH =>
      cases op with
      | install => right; rfl
      | uninstall => right; rfl
      | enable => right; rfl
      | disable => right; rfl
      | activate => right; rfl
      | deactivate => right; rfl
  | execH =>
      cases op with
      | activate => exact .inl ⟨rfl, rfl⟩
      | install => right; rfl
      | uninstall => right; rfl
      | enable => right; rfl
      | disable => right; rfl
      | deactivate => right; rfl

/-- C6 (amended): every `before_X` is validation-only — it returns or
raises with the world unchanged — except `PluginJsonHook.before_activate`,
which overwrites `start_timeout`, the capability lists and `sys.path`; and
every `after_X` only re-verifies — except
`PluginExecutionStateHook.after_activate`, which performs the
`active := True` mutation itself. -/
theorem before_hooks_validation_only :
    (∀ h op w, ¬ (h = Hook.jsonH ∧ op = Op.activate) →
      resultWorld (dispatch h .before op w) = w) ∧
    (∀ h op w, ¬ (h = Hook.execH ∧ op = Op.activate) →
      resultWorld (dispatch h .after op w) = w) := by
  constructor
  · intro h op w hne
    rcases before_dispatch_frame h op w with habs | hok
    · exact absurd habs hne
    · exact hok
  · intro h op w hne
    rcases after_dispatch_frame h op w with habs | hok
    · exact absurd habs hne
    · exact hok

/-- C6 counterexample: on the installed fixture, the manifest hook's
`before_activate` succeeds but changes `start_timeout` from 30 to 5 and
pops `sys.path`, and the execution hook's `after_activate` flips `active`
— mutation in the validation and post-verification phases. -/
theorem before_activate_mutates :
    (resultWorld (PluginJsonHook.before_activate wInstalled)).plugin.start_timeout = 5 ∧
    wInstalled.plugin.start_timeout = 30 ∧
    (resultWorld (PluginJsonHook.before_activate wInstalled)).sysPath = [] ∧
    wInstalled.sysPath = ["site-packages"] ∧
    (∃ w', PluginJsonHook.before_activate wInstalled = .ok w') ∧
    (resultWorld (PluginExecutionStateHook.after_activate wInstalled)).plugin.active = true ∧
    wInstalled.plugin.active = false := by
  exact ⟨by decide, by decide, by decide, by decide, ⟨_, rfl⟩, by decide, by decide⟩

/-- Witness for C6: a validating before callback and a verifying after
callback, both leaving the fresh world untouched. -/
theorem before_hooks_validation_only_witness :
    resultWorld (dispatch .execH .before .activate wFresh) = wFresh ∧
    resultWorld (dispatch .venvH .after .install wFresh) = wFresh :=
  ⟨before_hooks_validation_only.1 .execH .activate wFresh (by decide),
   before_hooks_validation_only.2 .venvH .install wFresh (by decide)⟩

/-- C2 (amended): `PluginManager.install` wraps nothing and compensates
nothing: when the source clone fails during the on phase, the raised git
error propagates to the caller unchanged — not as a ProvisioningError —
and the dependency environment created moments earlier by the venv hook
stays on disk, while the installed dir (cleared just before the failed
clone) is gone; the db record is untouched. -/
theorem install_no_cleanup (w : World) (hck : w.cloneOk = false) :
    resultErr (PluginManager.install w).2 = some .gitCommandError ∧
    (resultWorld (PluginManager.install w).2).venvExists = true ∧
    (resultWorld (PluginManager.install w).2).dirContent = none ∧
    (resultWorld (PluginManager.install w).2).dbRow = w.dbRow ∧
    (resultWorld (PluginManager.install w).2).plugin.db_plugin =
      w.plugin.db_plugin := by
  cases hdc : w.dirContent with
  | none =>
      by_cases hv : w.venvExists <;>
        refine ⟨?_, ?_, ?_, ?_, ?_⟩ <;>
        simp [PluginManager.install, runOp, runPhase, hookList, dispatch,
          VirtualEnvHook.on_install, PluginFilesStateHook.on_install,
          World.act, resultWorld, resultErr, hdc, hv, hck]
  | some c =>
      by_cases hreq : c.hasRequirements <;> by_cases hv : w.venvExists <;>
        refine ⟨?_, ?_, ?_, ?_, ?_⟩ <;>
        simp [PluginManager.install, runOp, runPhase, hookList, dispatch,
          VirtualEnvHook.on_install, PluginFilesStateHook.on_install,
          World.act, resultWorld, resultErr, hdc, hreq, hv, hck]

/-- C2 counterexample: a clone failure during install surfaces as the raw
git error — no single re-raised ProvisioningError — and the install leaves
the freshly created dependency environment behind on disk instead of
running a compensating cleanup. -/
theorem install_failure_leaves_residue :
    resultErr (PluginManager.install wCloneFail).2 = some .gitCommandError ∧
    wCloneFail.venvExists = false ∧
    (resultWorld (PluginManager.install wCloneFail).2).venvExists = true ∧
    (resultWorld (PluginManager.install wCloneFail).2).log =
      [.createVenv] := by decide

/-- Witness for C2: the amended theorem at the concrete clone-failure
world. -/
theorem install_no_cleanup_witness :
    resultErr (PluginManager.install wCloneFail).2 = some .gitCommandError ∧
    (resultWorld (PluginManager.install wCloneFail).2).venvExists = true ∧
    (resultWorld (PluginManager.install wCloneFail).2).dirContent = none ∧
    (resultWorld (PluginManager.install wCloneFail).2).dbRow = wCloneFail.dbRow ∧
    (resultWorld (PluginManager.install wCloneFail).2).plugin.db_plugin =
      wCloneFail.plugin.db_plugin :=
  install_no_cleanup wCloneFail (by decide)

/-- What a successful `install` guarantees about the resulting world. -/
theorem install_ok_state (w : World) (evs : List Event) (w1 : World)
    (h : PluginManager.install w = (evs, .ok w1)) :
    w1.venvExists = true ∧ w1.dirContent = some w.remote ∧
    w1.cloneOk = true ∧ w1.remote = w.remote ∧
    w1.plugin.name = w.plugin.name ∧ w1.plugin.description = w.plugin.description ∧
    w1.plugin.remote_url = w.plugin.remote_url ∧
    w1.plugin.db_plugin = some { app_url := w.plugin.remote_url,
                                 name := w.plugin.name,
                                 description := w.plugin.description } ∧
    w1.dbRow.isSome = true ∧ w1.plugin.active = w.plugin.active := by
  by_cases hck : w.cloneOk
  · cases hdc : w.dirContent with
    | none =>
        by_cases hv : w.venvExists <;> cases hrow : w.dbRow
        all_goals
          simp [PluginManager.install, runOp, runPhase, hookList, dispatch,
            VirtualEnvHook.on_install, VirtualEnvHook.after_install,
            PluginFilesStateHook.on_install, PluginFilesStateHook.after_install,
            PluginDBHook.on_install, World.act, hdc, hv, hrow, hck] at h
          obtain ⟨h1, h2⟩ := h
          subst h2
          simp [hck, hrow]
    | some c =>
        by_cases hreq : c.hasRequirements <;> by_cases hv : w.venvExists <;>
          cases hrow : w.dbRow
        all_goals
          simp [PluginManager.install, runOp, runPhase, hookList, dispatch,
            VirtualEnvHook.on_install, VirtualEnvHook.after_install,
            PluginFilesStateHook.on_install, PluginFilesStateHook.after_install,
            PluginDBHook.on_install, World.act, hdc, hreq, hv, hrow, hck] at h
          obtain ⟨h1, h2⟩ := h
          subst h2
          simp [hck, hrow]
  · exfalso
    cases hdc : w.dirContent with
    | none =>
        by_cases hv : w.venvExists <;>
          simp [PluginManager.install, runOp, runPhase, hookList, dispatch,
            VirtualEnvHook.on_install, PluginFilesStateHook.on_install,
            World.act, hdc, hv, hck] at h
    | some c =>
        by_cases hreq : c.hasRequirements <;> by_cases hv : w.venvExists <;>
          simp [PluginManager.install, runOp, runPhase, hookList, dispatch,
            VirtualEnvHook.on_install, PluginFilesStateHook.on_install,
            World.act, hdc, hreq, hv, hck] at h

/-- C3 (amended): re-installing an already-installed plugin returns an
equal snapshot, and the venv hook's existence check short-circuits
environment creation — but the source fetch is not skipped: the installed
dir is cleared and cloned again. -/
theorem install_idempotent_modulo_reclone (w : World) (evs : List Event)
    (w1 : World) (h : PluginManager.install w = (evs, .ok w1)) :
    ∃ evs2 w2, PluginManager.install w1 = (evs2, .ok w2) ∧
      w2.info = w1.info ∧
      ∃ d, w2.log = w1.log ++ d ∧ Effect.createVenv ∉ d ∧
        Effect.gitClone ∈ d ∧ Effect.removeDir ∈ d := by
  obtain ⟨hv1, hdc1, hck1, hrem1, hn1, hd1, hu1, hdb1, hrow1, hact1⟩ :=
    install_ok_state w evs w1 h
  obtain ⟨rr, hrow⟩ := Option.isSome_iff_exists.mp hrow1
  by_cases hreq : w.remote.hasRequirements
  · have hcomp : PluginManager.install w1 =
        (hookList.map (fun g => Event.call g .before .install) ++
         hookList.map (fun g => Event.call g .on .install) ++
         hookList.map (fun g => Event.call g .after .install),
         .ok { w1 with
               dirContent := some w1.remote,
               plugin := { w1.plugin with
                           db_plugin := some { app_url := w1.plugin.remote_url,
                                               name := w1.plugin.name,
                                               description := w1.plugin.description } },
               log := w1.log ++
                 [Effect.pipInstall, Effect.removeDir, Effect.gitClone] }) := by
      simp [PluginManager.install, runOp, runPhase, hookList, dispatch,
        VirtualEnvHook.on_install, VirtualEnvHook.after_install,
        PluginFilesStateHook.on_install, PluginFilesStateHook.after_install,
        PluginDBHook.on_install, World.act, hv1, hdc1, hck1, hrow, hreq]
    refine ⟨_, _, hcomp, ?_,
      [Effect.pipInstall, Effect.removeDir, Effect.gitClone], rfl,
      by decide, by decide, by decide⟩
    simp [World.info, World.installed, PluginState.enabled, hv1, hdc1, hrem1,
      hdb1, hn1, hd1, hu1]
  · have hcomp : PluginManager.install w1 =
        (hookList.map (fun g => Event.call g .before .install) ++
         hookList.map (fun g => Event.call g .on .install) ++
         hookList.map (fun g => Event.call g .after .install),
         .ok { w1 with
               dirContent := some w1.remote,
               plugin := { w1.plugin with
                           db_plugin := some { app_url := w1.plugin.remote_url,
                                               name := w1.plugin.name,
                                               description := w1.plugin.description } },
               log := w1.log ++ [Effect.removeDir, Effect.gitClone] }) := by
      simp [PluginManager.install, runOp, runPhase, hookList, dispatch,
        VirtualEnvHook.on_install, VirtualEnvHook.after_install,
        PluginFilesStateHook.on_install, PluginFilesStateHook.after_install,
        PluginDBHook.on_install, World.act, hv1, hdc1, hck1, hrow, hreq]
    refine ⟨_, _, hcomp, ?_,
      [Effect.removeDir, Effect.gitClone], rfl, by decide, by decide, by decide⟩
    simp [World.info, World.installed, PluginState.enabled, hv1, hdc1, hrem1,
      hdb1, hn1, hd1, hu1]

/-- C3 counterexample: the second install of the already-installed plugin
clears the directory and performs a fresh clone — the effect log grows by
removeDir and gitClone — contradicting "performs no source clone"; the
snapshot is nonetheless unchanged and no second venv creation happens. -/
theorem second_install_reclones :
    wInstalled.log = [.createVenv, .gitClone, .dbInsert] ∧
    resultErr (PluginManager.install wInstalled).2 = none ∧
    (resultWorld (PluginManager.install wInstalled).2).log =
      [.createVenv, .gitClone, .dbInsert, .removeDir, .gitClone] ∧
    (resultWorld (PluginManager.install wInstalled).2).info = wInstalled.info := by
  decide

/-- Witness for C3: the amended theorem applied to the first install of the
fresh plugin. -/
theorem install_idempotent_modulo_reclone_witness :
    ∃ evs2 w2, PluginManager.install wInstalled = (evs2, .ok w2) ∧
      w2.info = wInstalled.info ∧
      ∃ d, w2.log = wInstalled.log ++ d ∧ Effect.createVenv ∉ d ∧
        Effect.gitClone ∈ d ∧ Effect.removeDir ∈ d :=
  install_idempotent_modulo_reclone wFresh (PluginManager.install wFresh).1
    wInstalled (by decide)

/-- One phase visits a prefix of its hook list in order, and visits all of
it exactly when it succeeds. -/
theorem runPhase_take (ph : Phase) (op : Op) (hs : List Hook) (w : World) :
    ∃ n, n ≤ hs.length ∧
      (runPhase ph op hs w).1 = (hs.take n).map (fun h => Event.call h ph op) ∧
      (∀ w', (runPhase ph op hs w).2 = .ok w' → n = hs.length) := by
  induction hs generalizing w with
  | nil =>
      exact ⟨0, by simp, by simp [runPhase], fun _ _ => by simp⟩
  | cons hd tl ih =>
      cases hres : dispatch hd ph op w with
      | error e =>
          refine ⟨1, by simp, ?_, ?_⟩
          · simp [runPhase, hres]
          · intro w' hw'
            simp [runPhase, hres] at hw'
      | ok w2 =>
          obtain ⟨n, hle, hev, hok⟩ := ih w2
          refine ⟨n + 1, by simpa using hle, ?_, ?_⟩
          · simp [runPhase, hres, hev]
          · intro w' hw'
            simp [runPhase, hres] at hw'
            simpa using hok w' hw'

/-- C5: every lifecycle operation is the same 3-phase pipeline over the
operation's hook order — registration order for install/enable/activate
and reverse registration order for uninstall/disable/deactivate; the
emitted call trace is always a prefix of the full before/on/after trace,
it equals the full trace exactly on success, and a before-phase failure
aborts the operation with that error and its before-events only — no
on-step is attempted. -/
theorem three_phase_pipeline (op : Op) (w : World) :
    stepOp op w = runOp op (opHooks op) w ∧
    (stepOp op w).1 <+: fullTrace op ∧
    (∀ w', (stepOp op w).2 = .ok w' → (stepOp op w).1 = fullTrace op) ∧
    (∀ evs er, runPhase .before op (opHooks op) w = (evs, .error er) →
      stepOp op w = (evs, .error er)) := by
  have hstep : stepOp op w = runOp op (opHooks op) w := by cases op <;> rfl
  obtain ⟨n1, hle1, hev1, hok1⟩ := runPhase_take .before op (opHooks op) w
  rcases hb : runPhase .before op (opHooks op) w with ⟨evsB, rB⟩
  rw [hb] at hev1 hok1
  simp only at hev1 hok1
  cases rB with
  | error er =>
      have hro : runOp op (opHooks op) w = (evsB, .error er) :=
        runOp_before_err _ _ _ _ _ hb
      refine ⟨hstep, ?_, ?_, ?_⟩
      · rw [hstep, hro]
        have h1 : evsB <+: (opHooks op).map (fun h => Event.call h .before op) := by
          rw [hev1]
          exact (List.take_prefix _ _).map _
        exact (h1.trans (List.prefix_append _ _)).trans (List.prefix_append _ _)
      · intro w' hw'
        rw [hstep, hro] at hw'
        simp at hw'
      · intro evs er2 hb2
        simp only [Prod.mk.injEq, Except.error.injEq] at hb2
        rw [hstep, hro, hb2.1, hb2.2]
  | ok w1 =>
      have hn1 : n1 = (opHooks op).length := hok1 w1 rfl
      have hevB : evsB = (opHooks op).map (fun h => Event.call h .before op) := by
        rw [hev1, hn1, List.take_length]
      obtain ⟨n2, hle2, hev2, hok2⟩ := runPhase_take .on op (opHooks op) w1
      rcases ho : runPhase .on op (opHooks op) w1 with ⟨evsO, rO⟩
      rw [ho] at hev2 hok2
      simp only at hev2 hok2
      cases rO with
      | error er =>
          have hro := runOp_on_err op (opHooks op) w w1 evsB evsO er hb ho
          refine ⟨hstep, ?_, ?_, ?_⟩
          · rw [hstep, hro]
            have h2 : evsO <+: (opHooks op).map (fun h => Event.call h .on op) := by
              rw [hev2]
              exact (List.take_prefix _ _).map _
            obtain ⟨t, ht⟩ := h2
            refine ⟨t ++ (opHooks op).map (fun h => Event.call h .after op), ?_⟩
            rw [hevB]
            simp only [fullTrace, List.append_assoc, ← ht]
          · intro w' hw'
            rw [hstep, hro] at hw'
            simp at hw'
          · intro evs er2 hb2
            simp at hb2
      | ok w2 =>
          obtain ⟨n3, hle3, hev3, hok3⟩ := runPhase_take .after op (opHooks op) w2
          have hro := runOp_after op (opHooks op) w w1 w2 evsB evsO hb ho
          have hevO : evsO = (opHooks op).map (fun h => Event.call h .on op) := by
            rw [hev2, hok2 w2 rfl, List.take_length]
          refine ⟨hstep, ?_, ?_, ?_⟩
          · rw [hstep, hro]
            have h3 : (runPhase .after op (opHooks op) w2).1 <+:
                (opHooks op).map (fun h => Event.call h .after op) := by
              rw [hev3]
              exact (List.take_prefix _ _).map _
            obtain ⟨t, ht⟩ := h3
            refine ⟨t, ?_⟩
            rw [hevB, hevO]
            simp only [fullTrace, List.append_assoc, ← ht]
          · intro w' hw'
            rw [hstep, hro] at hw'
            simp only at hw'
            have hn3 := hok3 w' hw'
            rw [hstep, hro]
            simp only
            rw [hev3, hn3, List.take_length, hevB, hevO]
            rfl
          · intro evs er2 hb2
            simp at hb2

/-- Witness for C5: the pipeline shape at a successful activation and at a
failing (fresh-state) activation. -/
theorem three_phase_pipeline_witness :
    (stepOp .activate wEnabled).1 = fullTrace .activate ∧
    stepOp .uninstall wEnabled =
      ([.call .execH .before .uninstall],
       .error (.pluginLoadError "Must disable the plugin first.", wEnabled)) :=
  ⟨(three_phase_pipeline .activate wEnabled).2.2.1 wActive (by decide),
   (three_phase_pipeline .uninstall wEnabled).2.2.2
     [.call .execH .before .uninstall]
     (.pluginLoadError "Must disable the plugin first.", wEnabled) (by decide)⟩
